import Mathlib

/-!
Shallow embedding of the gas-estimation and RPC-dispatch core of the
bundler repository (MethodHandlerERC4337 and BundlerServer).

Conventions of the embedding:
- JavaScript BigInt values are modelled as Nat (gas values are
  nonnegative) or Int where a subtraction can go negative; BigInt
  division truncates toward zero, which is Int.tdiv on Int and plain
  division on Nat.
- A JavaScript string field that may be absent is an Option String; the
  truthiness test used by the source (absent and the empty string are
  falsy) is the function isTruthy below.
- String.prototype.toLowerCase is modelled as a character-wise lowercase
  map (jsToLowerCase); input.substring(0, 10) is String.take 10.
- A thrown exception is modelled with Except: RpcError values thrown by
  the source become the rpcError constructor, and the runtime TypeError
  raised by dereferencing an absent paymaster becomes typeError.
-/

/-- One frame of the nested call trace returned by debug_traceCall:
from, to, input, output, gasUsed, an optional error string, the call
type, and the child frames. The source field name `from` is a Lean
keyword, so the embedding uses callFrom, and `type` becomes ctype. -/
inductive TraceItem : Type where
  | mk (callFrom callTo input output : String) (gasUsed : Nat)
       (error : Option String) (ctype : String) (calls : List TraceItem)

def TraceItem.callFrom : TraceItem → String
  | .mk f _ _ _ _ _ _ _ => f

def TraceItem.callTo : TraceItem → String
  | .mk _ t _ _ _ _ _ _ => t

def TraceItem.input : TraceItem → String
  | .mk _ _ i _ _ _ _ _ => i

def TraceItem.output : TraceItem → String
  | .mk _ _ _ o _ _ _ _ => o

def TraceItem.gasUsed : TraceItem → Nat
  | .mk _ _ _ _ g _ _ _ => g

def TraceItem.error : TraceItem → Option String
  | .mk _ _ _ _ _ e _ _ => e

def TraceItem.ctype : TraceItem → String
  | .mk _ _ _ _ _ _ ty _ => ty

def TraceItem.calls : TraceItem → List TraceItem
  | .mk _ _ _ _ _ _ _ cs => cs

/-- JavaScript truthiness of an optional string field: absent
(undefined) and the empty string are falsy. -/
def isTruthy : Option String → Bool
  | none => false
  | some s => !s.isEmpty

/-- Model of String.prototype.toLowerCase (character-wise lowering). -/
def jsToLowerCase (s : String) : String := ⟨s.data.map Char.toLower⟩

/-- How JavaScript template literals display an optional field: an
absent value prints as the text undefined. -/
def optFieldString : Option String → String
  | none => "undefined"
  | some s => s

def EXECUTE_USEROP_SELECTOR : String := "0x8dd7712f"

def VALIDATE_PAYMASTER_SELECTOR : String := "0x52b7512c"

def POSTOP_SELECTOR : String := "0x7c627b21"

def VERIFICATION_SELECTOR : String := "0x19822f7c"

/-- Error code ValidationErrors.UserOperationReverted of the external
@account-abstraction/utils library (value per the bundler RPC spec). -/
def UserOperationReverted : Int := -32521

/-- getSimulationErrorMessage from MethodHandlerERC4337: formats the
revert path of a frame, or a generic message when no frame is given. -/
def getSimulationErrorMessage : Option TraceItem → String
  | some t =>
      t.ctype ++ " " ++ t.input ++ " from " ++ t.callFrom ++ " to " ++ t.callTo
        ++ " reverted with \"" ++ optFieldString t.error ++ ":\" " ++ t.output
  | none => "Unexpected simulation error"

mutual

/-- findRevertedCall: depth-first search for the first leaf frame that
carries a truthy error and is not a STATICCALL. -/
def findRevertedCall : TraceItem → Option TraceItem
  | .mk f t i o g e ty cs =>
    if cs.isEmpty && isTruthy e && (ty != "STATICCALL") then
      some (.mk f t i o g e ty cs)
    else
      findRevertedCallList cs

/-- Left-to-right short-circuit search over a list of child frames. -/
def findRevertedCallList : List TraceItem → Option TraceItem
  | [] => none
  | c :: cs =>
    match findRevertedCall c with
    | some r => some r
    | none => findRevertedCallList cs

end

mutual

/-- getCallFromTrace: depth-first search for the first frame matching
caller, callee and the 4-byte selector (first 10 characters of input). -/
def getCallFromTrace : TraceItem → String → String → String → Option TraceItem
  | .mk f t i o g e ty cs, fr, toA, sel =>
    if f == fr && t == toA && i.take 10 == sel then
      some (.mk f t i o g e ty cs)
    else
      getCallFromTraceList cs fr toA sel

def getCallFromTraceList : List TraceItem → String → String → String → Option TraceItem
  | [], _, _, _ => none
  | c :: cs, fr, toA, sel =>
    match getCallFromTrace c fr toA sel with
    | some r => some r
    | none => getCallFromTraceList cs fr toA sel

end

mutual

/-- getDepth: 1 for a frame with no child calls, otherwise 1 plus the
maximum depth over the children. -/
def getDepth : TraceItem → Nat
  | .mk _ _ _ _ _ _ _ cs =>
    if cs.isEmpty then 1 else getMaxChildDepth cs + 1

/-- The running-maximum loop of getDepth over the child frames. -/
def getMaxChildDepth : List TraceItem → Nat
  | [] => 0
  | c :: cs => Nat.max (getMaxChildDepth cs) (getDepth c)

end

/-- The error raised by an estimation step: an RpcError with message,
code and optional attached frame, or a runtime TypeError. -/
inductive EstimateError : Type where
  | rpcError (message : String) (code : Int) (data : Option TraceItem)
  | typeError (message : String)

/-- getCallGasLimit: fails when the frame is absent or carries an
error, otherwise scales gasUsed by 64^depth / 63^depth (floor) and adds
the 2000 gas fixed overhead. -/
def getCallGasLimit (call : Option TraceItem) : Except EstimateError Nat :=
  match call with
  | none =>
      .error (.rpcError "No call was made. Was that intentional?" UserOperationReverted none)
  | some c =>
      if isTruthy c.error then
        .error (.rpcError (getSimulationErrorMessage (some c)) UserOperationReverted (some c))
      else
        .ok (c.gasUsed * 64 ^ getDepth c / 63 ^ getDepth c + 2000)

mutual

/-- Preorder (depth-first) listing of all frames of a trace tree; used
only to state depth-first-order properties of the searches above. -/
def dfsFrames : TraceItem → List TraceItem
  | .mk f t i o g e ty cs => .mk f t i o g e ty cs :: dfsFramesList cs

def dfsFramesList : List TraceItem → List TraceItem
  | [] => []
  | c :: cs => dfsFrames c ++ dfsFramesList cs

end

/-- The predicate findRevertedCall matches on: an errored leaf frame
that is not a STATICCALL. -/
def revertedLeafPred (c : TraceItem) : Bool :=
  c.calls.isEmpty && isTruthy c.error && (c.ctype != "STATICCALL")

/-- The fields of the decoded simulateHandleOp result that
estimateUserOperationGas reads (decodeSimulateHandleOpResult is an
external library function, so it enters the embedding as a parameter
producing this record). -/
structure SimReturnInfo : Type where
  preOpGas : Nat
  accountValidationData : Nat
  paymasterValidationData : Nat

/-- A user operation as handled by MethodHandlerERC4337: signed intent
with sender, nonce, call payload, gas and fee fields, optional paymaster
block and optional factory block. Numeric fields are Nat. -/
structure UserOperation : Type where
  sender : String
  nonce : Nat
  callData : String
  preVerificationGas : Nat
  verificationGasLimit : Nat
  callGasLimit : Nat
  maxFeePerGas : Nat
  maxPriorityFeePerGas : Nat
  paymaster : Option String
  paymasterVerificationGasLimit : Option Nat
  paymasterPostOpGasLimit : Option Nat
  paymasterData : Option String
  factory : Option String
  factoryData : Option String
  signature : String
deriving DecidableEq

/-- Return value of estimateUserOperationGas (EstimateUserOpGasResult in
the source). The two verification limits are computed with BigInt
subtraction that can go negative, hence Int. -/
structure EstimateUserOpGasResult : Type where
  preVerificationGas : Nat
  verificationGasLimit : Int
  validAfter : Nat
  validUntil : Nat
  callGasLimit : Nat
  paymasterPostOpGasLimit : Nat
  paymasterVerificationGasLimit : Int
deriving DecidableEq

/-- estimateUserOperationGas of MethodHandlerERC4337, from the point
where the debug_traceCall response is in hand. The external library
functions it calls (decodeSimulateHandleOpResult, decodeRevertReason,
mergeValidationDataValues, and calcPreVerificationGas composed with
deepHexlify) are parameters; entryPointAddress is the configured entry
point. The source mutates its userOp argument (preVerificationGas is
assigned 50000 before calcPreVerificationGas runs), so the embedding
returns the post-call state of the operation next to the result. The
dereference userOp.paymaster!.toLowerCase() raises a TypeError at run
time when the paymaster is absent; that is the typeError branch. -/
def estimateUserOperationGas
    (decodeSimulateHandleOpResult : String → SimReturnInfo)
    (decodeRevertReason : String → Option String)
    (mergeValidationDataValues : Nat → Nat → Nat × Nat)
    (calcPreVerificationGas : UserOperation → Nat)
    (entryPointAddress : String)
    (trace : TraceItem)
    (userOp : UserOperation) :
    Except EstimateError (EstimateUserOpGasResult × UserOperation) :=
  if isTruthy trace.error then
    let errorTraceItem := findRevertedCall trace
    let message : Option String :=
      match errorTraceItem with
      | some t => some (getSimulationErrorMessage (some t))
      | none => decodeRevertReason trace.output
    .error (.rpcError (message.getD "Unexpected error during gas estimation")
      UserOperationReverted errorTraceItem)
  else
    let returnInfo := decodeSimulateHandleOpResult trace.output
    let merged := mergeValidationDataValues returnInfo.accountValidationData
      returnInfo.paymasterValidationData
    let preOpGas := returnInfo.preOpGas
    let executeCall := getCallFromTrace trace (jsToLowerCase entryPointAddress)
      (jsToLowerCase userOp.sender) EXECUTE_USEROP_SELECTOR
    match userOp.paymaster with
    | none => .error (.typeError "Cannot read properties of undefined (reading toLowerCase)")
    | some paymaster =>
      let validatePaymasterCall := getCallFromTrace trace (jsToLowerCase entryPointAddress)
        (jsToLowerCase paymaster) VALIDATE_PAYMASTER_SELECTOR
      let postOpCall := getCallFromTrace trace (jsToLowerCase entryPointAddress)
        (jsToLowerCase paymaster) POSTOP_SELECTOR
      let verificationCall := getCallFromTrace trace (jsToLowerCase entryPointAddress)
        (jsToLowerCase userOp.sender) VERIFICATION_SELECTOR
      match getCallGasLimit executeCall with
      | .error e => .error e
      | .ok callGasLimit =>
        match getCallGasLimit validatePaymasterCall with
        | .error e => .error e
        | .ok actualPaymasterVerificationGasLimit =>
          match getCallGasLimit postOpCall with
          | .error e => .error e
          | .ok paymasterPostOpGasLimit =>
            match getCallGasLimit verificationCall with
            | .error e => .error e
            | .ok actualAccountVerificationGasLimit =>
              let epValidationGas : Int := (preOpGas : Int)
                - (actualAccountVerificationGasLimit : Int)
                - (actualPaymasterVerificationGasLimit : Int)
              let accountValidationGasOverhead : Int := Int.tdiv (epValidationGas * 57) 100
              let paymasterValidationGasOverhead : Int := Int.tdiv (epValidationGas * 43) 100
              let verificationGasLimit : Int := (actualAccountVerificationGasLimit : Int)
                + accountValidationGasOverhead + 3000
              let paymasterVerificationGasLimit : Int := (actualPaymasterVerificationGasLimit : Int)
                + paymasterValidationGasOverhead + 3000
              let userOp2 := { userOp with preVerificationGas := 50000 }
              let preVerificationGas := calcPreVerificationGas userOp2
              .ok ({ preVerificationGas := preVerificationGas,
                     verificationGasLimit := verificationGasLimit,
                     validAfter := merged.1,
                     validUntil := merged.2,
                     callGasLimit := callGasLimit,
                     paymasterPostOpGasLimit := paymasterPostOpGasLimit,
                     paymasterVerificationGasLimit := paymasterVerificationGasLimit }, userOp2)

/-- selectBeneficiary of MethodHandlerERC4337: the configured
beneficiary, unless the signer balance is at or below the configured
minimum (BigNumber lte), in which case the signer address is used. -/
def selectBeneficiary (configBeneficiary : String) (minBalance : Nat)
    (signerAddress : String) (currentBalance : Nat) : String :=
  if currentBalance ≤ minBalance then signerAddress else configBeneficiary

/-- A thrown JavaScript error as seen by handleRpc of BundlerServer:
message, optional data and code, and optionally a nested Error held in
its error property (which handleRpc unwraps one level). The result and
data payloads are an abstract type. -/
inductive JsError (α : Type) : Type where
  | mk (message : String) (data : Option α) (code : Option Int)
       (inner : Option (JsError α))

def JsError.message : JsError α → String
  | .mk m _ _ _ => m

def JsError.data : JsError α → Option α
  | .mk _ d _ _ => d

def JsError.code : JsError α → Option Int
  | .mk _ _ c _ => c

/-- The unwrap step of handleRpc: if the caught value holds an Error in
its error property, that inner error replaces it. -/
def JsError.unwrap : JsError α → JsError α
  | .mk _ _ _ (some inner) => inner
  | e => e

/-- One JSON-RPC request item as destructured by handleRpc. -/
structure RpcRequestItem (α : Type) : Type where
  jsonrpc : String
  id : Nat
  method : String
  params : List α

/-- The JSON-RPC response object handleRpc builds: either jsonrpc, id
and a result, or jsonrpc, id and an error object with message, data and
code fields. -/
inductive RpcResponse (α : Type) : Type where
  | result (jsonrpc : String) (id : Nat) (result : α)
  | failure (jsonrpc : String) (id : Nat) (message : String)
            (data : Option α) (code : Option Int)

/-- handleRpc of BundlerServer: dispatches to handleMethod inside a
try/catch; a successful call is hexlified into a result response, a
thrown error is unwrapped once and turned into an error response. Its
own codomain stays in the exception monad to express that it never
rethrows. -/
def handleRpc (deepHexlify : α → α)
    (handleMethod : String → List α → Except (JsError α) α)
    (req : RpcRequestItem α) : Except (JsError α) (RpcResponse α) :=
  match handleMethod req.method req.params with
  | .ok r => .ok (.result req.jsonrpc req.id (deepHexlify r))
  | .error err =>
    let e := err.unwrap
    .ok (.failure req.jsonrpc req.id e.message e.data e.code)

/-- A located frame of depth 3 with gasUsed 21000 and no errors, for the
scenario of the spec (single top-level call, depth 3). -/
def depth3Inner : TraceItem := .mk "0xw" "0xv" "0xcc" "0x" 5000 none "CALL" []

def depth3Mid : TraceItem := .mk "0xs" "0xw" "0xbb" "0x" 9000 none "CALL" [depth3Inner]

def depth3Frame : TraceItem := .mk "0xe" "0xs" "0x8dd7712f" "0x" 21000 none "CALL" [depth3Mid]

/-- A successful simulation trace holding the four phase-marker frames
(entry point 0xe, sender 0xs, paymaster 0xp), each a leaf without error. -/
def wExecFrame : TraceItem := .mk "0xe" "0xs" "0x8dd7712f" "0x" 100 none "CALL" []

def wVPFrame : TraceItem := .mk "0xe" "0xp" "0x52b7512c" "0x" 200 none "CALL" []

def wPostFrame : TraceItem := .mk "0xe" "0xp" "0x7c627b21" "0x" 300 none "CALL" []

def wVerFrame : TraceItem := .mk "0xe" "0xs" "0x19822f7c" "0x" 400 none "CALL" []

def wTrace : TraceItem :=
  .mk "0x0" "0xe" "0xroot" "0xret" 9999 none "CALL"
    [wExecFrame, wVPFrame, wPostFrame, wVerFrame]

/-- A concrete user operation with a paymaster, used as fixture input. -/
def wOp : UserOperation :=
  { sender := "0xs", nonce := 1, callData := "0x", preVerificationGas := 77777,
    verificationGasLimit := 0, callGasLimit := 0, maxFeePerGas := 1,
    maxPriorityFeePerGas := 1, paymaster := some "0xp",
    paymasterVerificationGasLimit := some 0, paymasterPostOpGasLimit := some 0,
    paymasterData := some "0x", factory := none, factoryData := none,
    signature := "0x" }

/-- The same operation without a paymaster block. -/
def wOpNoPm : UserOperation :=
  { wOp with paymaster := none, paymasterVerificationGasLimit := none,
             paymasterPostOpGasLimit := none, paymasterData := none }

/-- Fixture stand-in for decodeSimulateHandleOpResult: preOpGas 50000. -/
def wDecode : String → SimReturnInfo := fun _ =>
  { preOpGas := 50000, accountValidationData := 0, paymasterValidationData := 0 }

/-- Fixture stand-in for decodeRevertReason: decodes nothing. -/
def wDrr : String → Option String := fun _ => none

/-- Fixture stand-in for mergeValidationDataValues. -/
def wMerge : Nat → Nat → Nat × Nat := fun a b => (a, b)

/-- Fixture stand-in for calcPreVerificationGas composed with
deepHexlify: reads the operation field it is handed. -/
def wCalc : UserOperation → Nat := fun op => op.preVerificationGas

/-- An errored non-STATICCALL leaf frame. -/
def c3Frame : TraceItem := .mk "0xa" "0xb" "0xdead" "0xout" 10 (some "Reverted") "CALL" []

/-- An errored STATICCALL leaf frame, first in depth-first order. -/
def c4StaticLeaf : TraceItem := .mk "0xa" "0xb" "0xdead" "0xo1" 10 (some "Reverted") "STATICCALL" []

/-- An errored CALL leaf frame, after the STATICCALL one. -/
def c4CallLeaf : TraceItem := .mk "0xa" "0xc" "0xbeef" "0xo2" 20 (some "Reverted") "CALL" []

/-- A trace whose root errors and whose first errored leaf in
depth-first order is a STATICCALL. -/
def c4Trace : TraceItem :=
  .mk "0x0" "0xe" "0xroot" "0xro" 100 (some "execution reverted") "CALL"
    [c4StaticLeaf, c4CallLeaf]

/-- An error-free leaf frame with gasUsed 63. -/
def c5Leaf : TraceItem := .mk "0xe" "0xs" "0x8dd7712f" "0x" 63 none "CALL" []

/-- A trace whose only errored leaf frame is a STATICCALL. -/
def c10Trace : TraceItem :=
  .mk "0x0" "0xe" "0xr" "0xo" 5 (some "err") "CALL" [c4StaticLeaf]

/-- The result the estimator computes on the wTrace and wOp fixture. -/
def wRes : EstimateUserOpGasResult :=
  { preVerificationGas := 50000, verificationGasLimit := 31278, validAfter := 0,
    validUntil := 0, callGasLimit := 2101, paymasterPostOpGasLimit := 2304,
    paymasterVerificationGasLimit := 24721 }

/-- The post-call state of wOp on the wTrace fixture. -/
def wOp2 : UserOperation := { wOp with preVerificationGas := 50000 }

theorem tdiv100_cast (m : Nat) : Int.tdiv (m : Int) 100 = ((m / 100 : Nat) : Int) := rfl

mutual

theorem findRevertedCall_eq_find : (t : TraceItem) →
    findRevertedCall t = (dfsFrames t).find? revertedLeafPred
  | .mk f t i o g e ty cs => by
    rw [findRevertedCall, dfsFrames]
    by_cases h : (cs.isEmpty && isTruthy e && (ty != "STATICCALL")) = true
    · rw [if_pos h, List.find?_cons_of_pos (dfsFramesList cs)
        (show revertedLeafPred (.mk f t i o g e ty cs) = true from h)]
    · rw [if_neg h, List.find?_cons_of_neg (dfsFramesList cs)
        (show ¬ revertedLeafPred (.mk f t i o g e ty cs) = true from h)]
      exact findRevertedCallList_eq_find cs

theorem findRevertedCallList_eq_find : (l : List TraceItem) →
    findRevertedCallList l = (dfsFramesList l).find? revertedLeafPred
  | [] => rfl
  | c :: cs => by
    rw [findRevertedCallList, dfsFramesList, List.find?_append,
        ← findRevertedCall_eq_find c, ← findRevertedCallList_eq_find cs]
    cases findRevertedCall c <;> rfl

end

theorem getMaxChildDepth_eq_foldr : (l : List TraceItem) →
    getMaxChildDepth l = (l.map getDepth).foldr Nat.max 0
  | [] => rfl
  | c :: cs => by
    rw [getMaxChildDepth, getMaxChildDepth_eq_foldr cs, List.map_cons, List.foldr_cons]
    exact Nat.max_comm _ _

/-- Claim C1: for every located frame that carries no error, the
computed gas limit is floor(gasUsed * 64^depth / 63^depth) + 2000,
where getDepth is 1 on a frame without child calls and 1 plus the
maximum child depth otherwise; and on the concrete depth-3 frame with
gasUsed 21000 the limit is floor(21000 * 64^3 / 63^3) + 2000. -/
theorem C1_located_frame_gas_limit (c : TraceItem) (h : isTruthy c.error = false) :
    getCallGasLimit (some c)
      = .ok (c.gasUsed * 64 ^ getDepth c / 63 ^ getDepth c + 2000)
    ∧ (c.calls = [] → getDepth c = 1)
    ∧ (c.calls ≠ [] → getDepth c = 1 + (c.calls.map getDepth).foldr Nat.max 0)
    ∧ getCallGasLimit (some depth3Frame) = .ok (21000 * 64 ^ 3 / 63 ^ 3 + 2000) := by
  refine ⟨by simp [getCallGasLimit, h], ?_, ?_, rfl⟩
  · intro hLeaf
    cases c with
    | mk f t i o g e ty cs =>
      simp only [TraceItem.calls] at hLeaf
      subst hLeaf
      rfl
  · intro hNe
    cases c with
    | mk f t i o g e ty cs =>
      simp only [TraceItem.calls] at hNe ⊢
      have hne : cs.isEmpty = false := by
        cases cs with
        | nil => exact absurd rfl hNe
        | cons a l => rfl
      rw [getDepth, hne, getMaxChildDepth_eq_foldr]
      simp [Nat.add_comm]

/-- Witness for C1 at the concrete depth-3 frame. -/
theorem C1_located_frame_gas_limit_witness :
    getCallGasLimit (some depth3Frame)
      = .ok (depth3Frame.gasUsed * 64 ^ getDepth depth3Frame / 63 ^ getDepth depth3Frame + 2000) :=
  (C1_located_frame_gas_limit depth3Frame rfl).1

/-- Counterexample to claim C5 as stated: the error-free leaf frame
with gasUsed 63 gets limit floor(63 * 64 / 63) + 2000 = 2064, not the
unscaled 63 + 2000 = 2063. -/
theorem C5_counterexample :
    c5Leaf.calls = [] ∧ isTruthy c5Leaf.error = false
    ∧ getCallGasLimit (some c5Leaf) = .ok 2064
    ∧ c5Leaf.gasUsed + 2000 = 2063
    ∧ (2064 : Nat) ≠ 2063 :=
  ⟨rfl, rfl, rfl, rfl, by decide⟩

/-- Claim C5 amended: for a located error-free leaf frame the computed
limit is gasUsed scaled once by 64/63 (floor), plus the 2000 overhead. -/
theorem C5_leaf_gas_limit (c : TraceItem) (hLeaf : c.calls = [])
    (hErr : isTruthy c.error = false) :
    getCallGasLimit (some c) = .ok (c.gasUsed * 64 / 63 + 2000) := by
  have hd : getDepth c = 1 := by
    cases c with
    | mk f t i o g e ty cs =>
      simp only [TraceItem.calls] at hLeaf
      subst hLeaf
      rfl
  simp [getCallGasLimit, hErr, hd]

/-- Witness for the amended C5 at the concrete leaf frame. -/
theorem C5_leaf_gas_limit_witness :
    getCallGasLimit (some c5Leaf) = .ok (c5Leaf.gasUsed * 64 / 63 + 2000) :=
  C5_leaf_gas_limit c5Leaf rfl rfl

/-- Counterexample to claim C7 as stated: with the signer balance
exactly equal to the configured minimum, the signer address is
returned, not the configured beneficiary (the source uses lte). -/
theorem C7_counterexample :
    selectBeneficiary "0xbene" 5 "0xsig" 5 = "0xsig" ∧ "0xsig" ≠ "0xbene" :=
  ⟨rfl, by decide⟩

/-- Claim C7 amended: the configured beneficiary is returned exactly
when the signer balance strictly exceeds the configured minimum; at or
below the minimum (including exact equality) the signer address is
returned. -/
theorem C7_beneficiary (cb sa : String) (minB bal : Nat) :
    (minB < bal → selectBeneficiary cb minB sa bal = cb)
    ∧ (bal ≤ minB → selectBeneficiary cb minB sa bal = sa) := by
  constructor
  · intro hlt
    unfold selectBeneficiary
    rw [if_neg (by omega)]
  · intro hle
    unfold selectBeneficiary
    rw [if_pos hle]

/-- Witness for the amended C7 on both sides of the threshold. -/
theorem C7_beneficiary_witness :
    selectBeneficiary "0xbene" 5 "0xsig" 7 = "0xbene"
    ∧ selectBeneficiary "0xbene" 5 "0xsig" 5 = "0xsig" :=
  ⟨(C7_beneficiary "0xbene" "0xsig" 5 7).1 (by decide),
   (C7_beneficiary "0xbene" "0xsig" 5 5).2 (by decide)⟩

/-- Claim C10: findRevertedCall never returns a STATICCALL frame, and
when every errored leaf frame of the tree is a STATICCALL it returns
none. -/
theorem C10_no_staticcall_reported (t : TraceItem) :
    (∀ r, findRevertedCall t = some r → r.ctype ≠ "STATICCALL")
    ∧ ((∀ c ∈ dfsFrames t, c.calls.isEmpty = true → isTruthy c.error = true →
          c.ctype = "STATICCALL") →
        findRevertedCall t = none) := by
  constructor
  · intro r hr
    rw [findRevertedCall_eq_find] at hr
    have hp := List.find?_some hr
    simp only [revertedLeafPred, Bool.and_eq_true, bne_iff_ne] at hp
    exact hp.2
  · intro hall
    rw [findRevertedCall_eq_find, List.find?_eq_none]
    intro x hx hpx
    simp only [revertedLeafPred, Bool.and_eq_true, bne_iff_ne] at hpx
    exact hpx.2 (hall x hx hpx.1.1 hpx.1.2)

/-- Witness for C10 on a tree whose only errored leaf is a STATICCALL. -/
theorem C10_no_staticcall_reported_witness : findRevertedCall c10Trace = none :=
  (C10_no_staticcall_reported c10Trace).2 (by decide)

/-- Claim C2: on a successful estimation, the unaccounted validation
overhead is preOpGas minus the account-verification limit minus the
paymaster-verification limit, and the returned budgets add floor(57
percent) respectively floor(43 percent) of that overhead plus a 3000
margin to the measured limits. -/
theorem C2_overhead_split
    (dec : String → SimReturnInfo) (drr : String → Option String)
    (mrg : Nat → Nat → Nat × Nat) (cpv : UserOperation → Nat)
    (ep : String) (trace : TraceItem) (userOp : UserOperation) (pm : String)
    (aLim pLim cLim postLim : Nat)
    (hTrace : isTruthy trace.error = false)
    (hPm : userOp.paymaster = some pm)
    (hExec : getCallGasLimit (getCallFromTrace trace (jsToLowerCase ep)
      (jsToLowerCase userOp.sender) EXECUTE_USEROP_SELECTOR) = .ok cLim)
    (hVP : getCallGasLimit (getCallFromTrace trace (jsToLowerCase ep)
      (jsToLowerCase pm) VALIDATE_PAYMASTER_SELECTOR) = .ok pLim)
    (hPost : getCallGasLimit (getCallFromTrace trace (jsToLowerCase ep)
      (jsToLowerCase pm) POSTOP_SELECTOR) = .ok postLim)
    (hVer : getCallGasLimit (getCallFromTrace trace (jsToLowerCase ep)
      (jsToLowerCase userOp.sender) VERIFICATION_SELECTOR) = .ok aLim)
    (hOv : aLim + pLim ≤ (dec trace.output).preOpGas) :
    ∃ res op2,
      estimateUserOperationGas dec drr mrg cpv ep trace userOp = .ok (res, op2)
      ∧ res.verificationGasLimit
          = ((aLim + ((dec trace.output).preOpGas - (aLim + pLim)) * 57 / 100 + 3000 : Nat) : Int)
      ∧ res.paymasterVerificationGasLimit
          = ((pLim + ((dec trace.output).preOpGas - (aLim + pLim)) * 43 / 100 + 3000 : Nat) : Int) := by
  simp only [estimateUserOperationGas, hTrace, Bool.false_eq_true, if_false,
    hPm, hExec, hVP, hPost, hVer]
  refine ⟨_, _, rfl, ?_, ?_⟩
  all_goals
    simp only []
    rw [show ((dec trace.output).preOpGas : Int) - aLim - pLim
        = (((dec trace.output).preOpGas - (aLim + pLim) : Nat) : Int) by omega]
  · rw [show ((((dec trace.output).preOpGas - (aLim + pLim) : Nat) : Int) * 57)
        = ((((dec trace.output).preOpGas - (aLim + pLim)) * 57 : Nat) : Int) by push_cast; ring]
    rw [tdiv100_cast]
    push_cast
    ring
  · rw [show ((((dec trace.output).preOpGas - (aLim + pLim) : Nat) : Int) * 43)
        = ((((dec trace.output).preOpGas - (aLim + pLim)) * 43 : Nat) : Int) by push_cast; ring]
    rw [tdiv100_cast]
    push_cast
    ring

/-- Witness for C2 on the concrete four-frame trace: measured limits
2406 (account) and 2203 (paymaster), preOpGas 50000, overhead 45391. -/
theorem C2_overhead_split_witness :
    ∃ res op2,
      estimateUserOperationGas wDecode wDrr wMerge wCalc "0xe" wTrace wOp = .ok (res, op2)
      ∧ res.verificationGasLimit = ((2406 + 45391 * 57 / 100 + 3000 : Nat) : Int)
      ∧ res.paymasterVerificationGasLimit = ((2203 + 45391 * 43 / 100 + 3000 : Nat) : Int) :=
  C2_overhead_split wDecode wDrr wMerge wCalc "0xe" wTrace wOp "0xp" 2406 2203 2101 2304
    rfl rfl rfl rfl rfl rfl (by decide)

/-- Claim C3: an absent marker frame is signalled with the distinct
no-such-call message and no attached frame, while a located frame that
carries an error is signalled with a revert message carrying the frame
call type, input, callee and output, with the frame attached; the two
signals are distinct values. -/
theorem C3_marker_not_found_vs_revert (trace : TraceItem) (fr toA sel : String)
    (c : TraceItem)
    (hNF : getCallFromTrace trace fr toA sel = none)
    (hErr : isTruthy c.error = true) :
    getCallGasLimit (getCallFromTrace trace fr toA sel)
      = .error (.rpcError "No call was made. Was that intentional?" UserOperationReverted none)
    ∧ (∃ g, getCallGasLimit (some c)
        = .error (.rpcError
            (c.ctype ++ " " ++ c.input ++ " from " ++ c.callFrom ++ " to " ++ c.callTo
              ++ g ++ c.output)
            UserOperationReverted (some c)))
    ∧ getCallGasLimit (getCallFromTrace trace fr toA sel) ≠ getCallGasLimit (some c) := by
  refine ⟨by rw [hNF]; rfl,
    ⟨" reverted with \"" ++ optFieldString c.error ++ ":\" ", ?_⟩, ?_⟩
  · simp [getCallGasLimit, hErr, getSimulationErrorMessage, String.append_assoc]
  · rw [hNF]
    simp [getCallGasLimit, hErr]

/-- Witness for C3: a selector absent from the concrete trace, next to
a concrete errored frame. -/
theorem C3_marker_not_found_vs_revert_witness :
    getCallGasLimit (getCallFromTrace wTrace "0xz" "0xz" "0xnope")
      = .error (.rpcError "No call was made. Was that intentional?" UserOperationReverted none)
    ∧ (∃ g, getCallGasLimit (some c3Frame)
        = .error (.rpcError
            (c3Frame.ctype ++ " " ++ c3Frame.input ++ " from " ++ c3Frame.callFrom ++ " to "
              ++ c3Frame.callTo ++ g ++ c3Frame.output)
            UserOperationReverted (some c3Frame)))
    ∧ getCallGasLimit (getCallFromTrace wTrace "0xz" "0xz" "0xnope")
        ≠ getCallGasLimit (some c3Frame) :=
  C3_marker_not_found_vs_revert wTrace "0xz" "0xz" "0xnope" c3Frame rfl rfl

/-- Counterexample to claim C4 as stated: on a trace whose root errors,
the first errored leaf in depth-first order is a STATICCALL frame, yet
the estimator reports the later CALL leaf, so the reported revert path
is not the first errored leaf. -/
theorem C4_counterexample :
    isTruthy c4Trace.error = true
    ∧ (dfsFrames c4Trace).find? (fun c => c.calls.isEmpty && isTruthy c.error)
        = some c4StaticLeaf
    ∧ estimateUserOperationGas wDecode wDrr wMerge wCalc "0xe" c4Trace wOp
        = .error (.rpcError (getSimulationErrorMessage (some c4CallLeaf))
            UserOperationReverted (some c4CallLeaf))
    ∧ c4CallLeaf.ctype ≠ c4StaticLeaf.ctype :=
  ⟨rfl, rfl, rfl, by decide⟩

/-- Claim C4 amended: when the root errors, the reported revert path is
the first errored non-STATICCALL leaf frame in depth-first order
(short-circuit first match of findRevertedCall); when no such leaf
exists the signalled error carries no frame, and its message falls back
to the generic unexpected-error text when no revert reason decodes. -/
theorem C4_revert_path
    (dec : String → SimReturnInfo) (drr : String → Option String)
    (mrg : Nat → Nat → Nat × Nat) (cpv : UserOperation → Nat)
    (ep : String) (trace : TraceItem) (userOp : UserOperation)
    (h : isTruthy trace.error = true) :
    (∀ r, findRevertedCall trace = some r →
        estimateUserOperationGas dec drr mrg cpv ep trace userOp
          = .error (.rpcError (getSimulationErrorMessage (some r))
              UserOperationReverted (some r))
        ∧ (dfsFrames trace).find? revertedLeafPred = some r)
    ∧ (findRevertedCall trace = none →
        estimateUserOperationGas dec drr mrg cpv ep trace userOp
          = .error (.rpcError ((drr trace.output).getD "Unexpected error during gas estimation")
              UserOperationReverted none)) := by
  constructor
  · intro r hr
    constructor
    · simp only [estimateUserOperationGas, h, if_true, hr, Option.getD_some]
    · rw [← findRevertedCall_eq_find]
      exact hr
  · intro hr
    simp only [estimateUserOperationGas, h, if_true, hr]

/-- Witness for the amended C4 at the concrete mixed trace. -/
theorem C4_revert_path_witness :
    estimateUserOperationGas wDecode wDrr wMerge wCalc "0xe" c4Trace wOp
      = .error (.rpcError (getSimulationErrorMessage (some c4CallLeaf))
          UserOperationReverted (some c4CallLeaf))
    ∧ (dfsFrames c4Trace).find? revertedLeafPred = some c4CallLeaf :=
  (C4_revert_path wDecode wDrr wMerge wCalc "0xe" c4Trace wOp rfl).1 c4CallLeaf rfl

/-- Counterexample to claim C6 as stated: a successful estimation run
leaves the operation with preVerificationGas 50000 although it came in
as 77777, so the input operation is mutated. -/
theorem C6_counterexample :
    (estimateUserOperationGas wDecode wDrr wMerge wCalc "0xe" wTrace wOp).toOption.map
        (fun p => p.2.preVerificationGas) = some 50000
    ∧ wOp.preVerificationGas = 77777
    ∧ (50000 : Nat) ≠ 77777 :=
  ⟨rfl, rfl, by decide⟩

/-- Claim C6 amended: on every successful call the operation state
after estimateUserOperationGas equals the input with exactly the
preVerificationGas field overwritten to 50000; every other field keeps
its value. -/
theorem C6_mutates_preVerificationGas
    (dec : String → SimReturnInfo) (drr : String → Option String)
    (mrg : Nat → Nat → Nat × Nat) (cpv : UserOperation → Nat)
    (ep : String) (trace : TraceItem) (userOp : UserOperation)
    (res : EstimateUserOpGasResult) (op2 : UserOperation)
    (h : estimateUserOperationGas dec drr mrg cpv ep trace userOp = .ok (res, op2)) :
    op2 = { userOp with preVerificationGas := 50000 } := by
  simp only [estimateUserOperationGas] at h
  split at h
  · exact Except.noConfusion h
  · split at h
    · exact Except.noConfusion h
    · split at h
      · exact Except.noConfusion h
      · split at h
        · exact Except.noConfusion h
        · split at h
          · exact Except.noConfusion h
          · split at h
            · exact Except.noConfusion h
            · simp only [Except.ok.injEq, Prod.mk.injEq] at h
              exact h.2.symm

/-- Witness for the amended C6 at the concrete successful run. -/
theorem C6_mutates_preVerificationGas_witness :
    wOp2 = { wOp with preVerificationGas := 50000 } :=
  C6_mutates_preVerificationGas wDecode wDrr wMerge wCalc "0xe" wTrace wOp wRes wOp2 rfl

/-- Claim C8: handleRpc answers every request item with a response
object carrying the request jsonrpc and id and either a result or an
error object built from the message, data and code of the thrown error
(after one unwrap step); it never rethrows. -/
theorem C8_handleRpc_total (α : Type) (hex : α → α)
    (hm : String → List α → Except (JsError α) α) (req : RpcRequestItem α) :
    (∃ r, handleRpc hex hm req = .ok (.result req.jsonrpc req.id r))
    ∨ (∃ e, hm req.method req.params = .error e
        ∧ handleRpc hex hm req
            = .ok (.failure req.jsonrpc req.id e.unwrap.message e.unwrap.data e.unwrap.code)) := by
  cases hcase : hm req.method req.params with
  | ok r =>
    exact Or.inl ⟨hex r, by simp only [handleRpc, hcase]⟩
  | error err =>
    exact Or.inr ⟨err, rfl, by simp only [handleRpc, hcase]⟩

/-- Claim C9: with an absent paymaster, estimateUserOperationGas always
fails (either with the simulation-error branch or with the TypeError
raised by dereferencing the absent paymaster) and never returns an
estimate. -/
theorem C9_missing_paymaster
    (dec : String → SimReturnInfo) (drr : String → Option String)
    (mrg : Nat → Nat → Nat × Nat) (cpv : UserOperation → Nat)
    (ep : String) (trace : TraceItem) (userOp : UserOperation)
    (h : userOp.paymaster = none) :
    ∃ e, estimateUserOperationGas dec drr mrg cpv ep trace userOp = .error e := by
  unfold estimateUserOperationGas
  by_cases hT : isTruthy trace.error = true
  · rw [if_pos hT]
    exact ⟨_, rfl⟩
  · rw [if_neg hT, h]
    exact ⟨_, rfl⟩

/-- Witness for C9 at a concrete paymasterless operation. -/
theorem C9_missing_paymaster_witness :
    ∃ e, estimateUserOperationGas wDecode wDrr wMerge wCalc "0xe" wTrace wOpNoPm = .error e :=
  C9_missing_paymaster wDecode wDrr wMerge wCalc "0xe" wTrace wOpNoPm rfl
